import Mathlib

/-!
Verification of the lazy-freeze protocol (class decorator and `lf_list`
sequence container) against its natural-language specification.

The development shallowly embeds the two source modules:
* `lf_list.py` — a hashable list-like container that rejects mutation once its
  hash has been taken;
* `decorator.py` — the `lazy_freeze` class decorator that installs guarded
  replacements for mutating dunder methods.

Python values are modelled by the inductive `PyVal`; Python exceptions by
`PyError`; fallible operations return `Except PyError _`.  Stack traces are
modelled as opaque strings passed to hash calls as a `site` argument.  The
numeric content of the environment-supplied hash primitive is abstracted by a
concrete order-sensitive fold (the spec places the hashing algorithm itself out
of scope); what is modelled faithfully is *when* hashing occurs and its freeze
side effects.
-/

set_option autoImplicit false

namespace LazyFreeze

/-- Model of the Python values that appear in the claims.  A mutable mapping
(`dict`) carries an opaque tag; its contents never matter to any claim. -/
inductive PyVal where
  | int (n : Int)
  | str (s : String)
  | dict (tag : Nat)
  | pynone
  deriving DecidableEq

/-- Model of the Python exception classes raised by the source. -/
inductive PyError where
  | typeError (msg : String)
  | assertionError (msg : String)
  | attributeError (msg : String)
  | indexError (msg : String)
  | valueError (msg : String)
  deriving DecidableEq

/-- Model of Python `hasattr(v, "__hash__")`.  Every Python object exposes a
`__hash__` attribute: for hashable types it is a function, and for unhashable
types such as `dict` the attribute *exists* with value `None`, so `hasattr`
still returns `True`.  This is why the result is `true` for every constructor,
including `dict`. -/
def hasattr_hash : PyVal → Bool
  | .int _ => true
  | .str _ => true
  | .dict _ => true
  | .pynone => true

/-- Model of `type(v).__hash__ is not None`: whether calling `hash(v)` would
succeed.  Mutable mappings are unhashable. -/
def hashable : PyVal → Bool
  | .int _ => true
  | .str _ => true
  | .dict _ => false
  | .pynone => true

/-- Model of Python `str(v)` as used inside f-string error messages.  The
rendering of a mapping is abstracted by its tag. -/
def pyStr : PyVal → String
  | .int n => toString n
  | .str s => s
  | .dict t => "dict object " ++ toString t
  | .pynone => "None"

/-- Model of `hash(v)` for a single value.  `hash(n) = n` for small ints in
CPython; the string and None hashes are opaque environment primitives,
abstracted here by concrete stand-ins.  Unhashable values raise `TypeError`. -/
def pyHashVal : PyVal → Except PyError Int
  | .int n => .ok n
  | .str s => .ok (Int.ofNat s.length)
  | .dict _ => .error (.typeError "unhashable type: dict")
  | .pynone => .ok 0

/-- Model of `hash(tuple(xs))`: an order-sensitive, duplicate-sensitive fold of
the element hashes (the numeric combiner abstracts the CPython tuple hash, an
opaque environment primitive; 1000003 is the classic multiplier). -/
def tupleHash (xs : List PyVal) : Except PyError Int :=
  xs.foldlM (fun acc v => do
    let h ← pyHashVal v
    pure (acc * 1000003 + h)) (Int.ofNat xs.length)

/-! ## The `lf_list` container (`lf_list.py`) -/

/-- State of an `lf_list` instance: the underlying `data` list, the
`hash_taken` flag, the `_debug` flag, and the `_hash_stack` capture site. -/
structure LfList where
  data : List PyVal
  hash_taken : Bool
  debug : Bool
  hash_stack : Option String
  deriving DecidableEq

/-- What a method call returns besides the updated state: `selfRef` models
`return self` (the same object, for chaining), `value v` models returning a
plain value (e.g. the element removed by `pop`). -/
inductive MethResult where
  | selfRef
  | value (v : PyVal)
  deriving DecidableEq

/-- Model of the f-string rendering of `self._hash_stack` (Python prints the
value `None` as the text `None`). -/
def stackText : Option String → String
  | some s => s
  | none => "None"

/-- The message `validate`/`validate_sequence` raise once `hash_taken` holds:
with `_debug` the captured stack is interpolated, otherwise a generic text. -/
def LfList.freezeMsg (l : LfList) : String :=
  if l.debug then "Cannot modify lf_list, hash was taken at " ++ stackText l.hash_stack
  else "Cannot modify lf_list after hash is taken"

/-- Message of the debug-mode unhashable-element check. -/
def unhashableMsg (v : PyVal) : String :=
  "Attempted adding an unhashable object " ++ pyStr v ++ " to lf_list"

/-- Source method `lf_list.validate(value=None)`: in debug mode, if `value is not None` and
`not hasattr(value, "__hash__")`, raise; then if `hash_taken`, raise. -/
def LfList.validate (l : LfList) (value : Option PyVal) : Except PyError Unit :=
  match (if l.debug then value.filter (fun v => !hasattr_hash v) else none) with
  | some v => .error (.typeError (unhashableMsg v))
  | none =>
    if l.hash_taken then .error (.typeError l.freezeMsg) else .ok ()

/-- First element of the sequence failing the `hasattr(item, "__hash__")`
test, i.e. the element at which the debug loop in `validate_sequence` would
raise. -/
def firstUnhashable (sequence : List PyVal) : Option PyVal :=
  sequence.find? (fun item => !hasattr_hash item)

/-- Source method `lf_list.validate_sequence(sequence)`: in debug mode, raise at the first
element without a `__hash__` attribute; then if `hash_taken`, raise. -/
def LfList.validate_sequence (l : LfList) (sequence : List PyVal) : Except PyError Unit :=
  match (if l.debug then firstUnhashable sequence else none) with
  | some item => .error (.typeError (unhashableMsg item))
  | none =>
    if l.hash_taken then .error (.typeError l.freezeMsg) else .ok ()

/-- Source constructor `lf_list.__init__(*args, **kwargs)`.  The source forwards both `*args` and
`**kwargs` to `UserList.__init__`, which accepts one optional positional
`initlist` and **no** keyword arguments; any keyword (in particular `debug`)
makes that call raise `TypeError` before the body runs.  On success the body
sets `hash_taken = False`, `_debug = kwargs.get("debug", False)` (necessarily
`False`, since any kwarg would already have raised) and `_hash_stack = None`. -/
def lf_list_init (args : List (List PyVal)) (debugKw : Option Bool) :
    Except PyError LfList :=
  if debugKw.isSome then
    .error (.typeError "UserList.init got an unexpected keyword argument debug")
  else
    match args with
    | [] => .ok { data := [], hash_taken := false, debug := false, hash_stack := none }
    | [initlist] =>
      .ok { data := initlist, hash_taken := false, debug := false, hash_stack := none }
    | _ => .error (.typeError "UserList.init takes at most 2 arguments")

/-- Source method `lf_list.__hash__`: sets `hash_taken = True`, then (in debug mode)
unconditionally stores the current stack (`site`), then returns
`hash(tuple(self.data))`.  The state updates happen even if the tuple hash
raises, mirroring the statement order of the source. -/
def LfList.hash (l : LfList) (site : String) : Except PyError Int × LfList :=
  let l1 : LfList := { l with hash_taken := true }
  let l2 : LfList := if l1.debug then { l1 with hash_stack := some site } else l1
  (tupleHash l2.data, l2)

/-- Python index normalisation for subscript access: negative indices count
from the end; out-of-range yields `none` (an `IndexError` at the call site). -/
def normIdx (len : Nat) (i : Int) : Option Nat :=
  let j : Int := if i < 0 then i + len else i
  if 0 ≤ j ∧ j < (len : Int) then some j.toNat else none

/-- Python `list.insert` position clamping: negative from the end, then clamped
into `[0, len]` (never raises). -/
def pyInsertPos (len : Nat) (i : Int) : Nat :=
  let j : Int := if i < 0 then i + len else i
  if j < 0 then 0 else if j > (len : Int) then len else j.toNat

/-- Source method `lf_list.__setitem__(index, value)`: validate, then `self.data[index] = value`. -/
def LfList.setitem (l : LfList) (index : Int) (value : PyVal) :
    Except PyError LfList :=
  match l.validate (some value) with
  | .error e => .error e
  | .ok _ =>
    match normIdx l.data.length index with
    | some j => .ok { l with data := l.data.set j value }
    | none => .error (.indexError "list assignment index out of range")

/-- Source method `lf_list.__delitem__(index)`: validate, then `del self.data[index]`. -/
def LfList.delitem (l : LfList) (index : Int) : Except PyError LfList :=
  match l.validate none with
  | .error e => .error e
  | .ok _ =>
    match normIdx l.data.length index with
    | some j => .ok { l with data := l.data.eraseIdx j }
    | none => .error (.indexError "list assignment index out of range")

/-- Source method `lf_list.append(value)`: validate with the value, append, `return self`. -/
def LfList.append (l : LfList) (value : PyVal) :
    Except PyError (MethResult × LfList) :=
  match l.validate (some value) with
  | .error e => .error e
  | .ok _ => .ok (.selfRef, { l with data := l.data ++ [value] })

/-- Source method `lf_list.extend(iterable)`.  The source calls `self.validate_sequence()`
with **no** argument, but `validate_sequence` requires a positional `sequence`
parameter, so the call itself raises `TypeError` before any check or mutation
can happen — `extend` can never succeed. -/
def LfList.extend (l : LfList) (iterable : List PyVal) :
    Except PyError (MethResult × LfList) :=
  .error (.typeError "validate_sequence missing 1 required positional argument: sequence")

/-- Source method `lf_list.insert(index, value)`: validate with the value, insert, `return self`. -/
def LfList.insert (l : LfList) (index : Int) (value : PyVal) :
    Except PyError (MethResult × LfList) :=
  match l.validate (some value) with
  | .error e => .error e
  | .ok _ =>
    .ok (.selfRef, { l with data := l.data.insertIdx (pyInsertPos l.data.length index) value })

/-- Source method `lf_list.pop(index=-1)`: validate, then remove and return the element at
`index` (callers model the default by passing `-1`). -/
def LfList.pop (l : LfList) (index : Int) : Except PyError (MethResult × LfList) :=
  match l.validate none with
  | .error e => .error e
  | .ok _ =>
    match normIdx l.data.length index with
    | some j => .ok (.value (l.data.getD j .pynone), { l with data := l.data.eraseIdx j })
    | none => .error (.indexError "pop index out of range")

/-- Source method `lf_list.remove(value)`: validate, remove the first occurrence, `return self`. -/
def LfList.remove (l : LfList) (value : PyVal) :
    Except PyError (MethResult × LfList) :=
  match l.validate none with
  | .error e => .error e
  | .ok _ =>
    if l.data.contains value then .ok (.selfRef, { l with data := l.data.erase value })
    else .error (.valueError "list.remove(x): x not in list")

/-- Source method `lf_list.clear()`: validate, clear, `return self`. -/
def LfList.clear (l : LfList) : Except PyError (MethResult × LfList) :=
  match l.validate none with
  | .error e => .error e
  | .ok _ => .ok (.selfRef, { l with data := [] })

/-- Source method `lf_list.reverse()`: validate, reverse in place, `return self`. -/
def LfList.reverse (l : LfList) : Except PyError (MethResult × LfList) :=
  match l.validate none with
  | .error e => .error e
  | .ok _ => .ok (.selfRef, { l with data := l.data.reverse })

/-- Source method `lf_list.sort(*args, **kwargs)`: validate, sort `data` in place (the
comparison derived from the arguments is abstracted by the `le` parameter;
a stable sort models the stable CPython `list.sort`), `return self`. -/
def LfList.sort (l : LfList) (le : PyVal → PyVal → Bool) :
    Except PyError (MethResult × LfList) :=
  match l.validate none with
  | .error e => .error e
  | .ok _ =>
    .ok (.selfRef, { l with data := l.data.insertionSort (fun a b => le a b = true) })

/-- Source method `lf_list.__add__(other)`: validate the incoming sequence, then
`self.data += other` (an **in-place** extension of the left operand, not a
fresh concatenation) and `return self`. -/
def LfList.add (l : LfList) (other : List PyVal) :
    Except PyError (MethResult × LfList) :=
  match l.validate_sequence other with
  | .error e => .error e
  | .ok _ => .ok (.selfRef, { l with data := l.data ++ other })

/-- Source method `lf_list.__iadd__(other)`: identical body to `__add__`. -/
def LfList.iadd (l : LfList) (other : List PyVal) :
    Except PyError (MethResult × LfList) :=
  match l.validate_sequence other with
  | .error e => .error e
  | .ok _ => .ok (.selfRef, { l with data := l.data ++ other })

/-- Source method `lf_list.__getitem__` is inherited from `UserList` and performs no
validation (reads are always allowed). -/
def LfList.getitem (l : LfList) (index : Int) : Except PyError PyVal :=
  match normIdx l.data.length index with
  | some j => .ok (l.data.getD j .pynone)
  | none => .error (.indexError "list index out of range")

/-! ### Helper lemmas -/

theorem hasattr_hash_true (v : PyVal) : hasattr_hash v = true := by
  cases v <;> rfl

theorem firstUnhashable_none (b : List PyVal) : firstUnhashable b = none := by
  simp only [firstUnhashable, List.find?_eq_none]
  intro x _
  simp [hasattr_hash_true]

theorem validate_sequence_eq (l : LfList) (b : List PyVal) :
    l.validate_sequence b =
      (if l.hash_taken then .error (.typeError l.freezeMsg) else .ok ()) := by
  unfold LfList.validate_sequence
  rw [firstUnhashable_none, ite_self]

/-! ### Claims about the sequence container -/

/-- C1: for `lf_list([1, 2, 3])` (diagnostics disabled): `append(4)` succeeds
and yields `[1, 2, 3, 4]` returning the container itself; taking the hash
freezes the container (`hash_taken` becomes true); a subsequent `append(5)`
raises the mutation-rejected `TypeError` and the elements remain exactly
`[1, 2, 3, 4]` (the rejected call returns only an error, changing nothing). -/
theorem c1_freeze_scenario :
    lf_list_init [[PyVal.int 1, PyVal.int 2, PyVal.int 3]] none =
      .ok { data := [.int 1, .int 2, .int 3], hash_taken := false,
            debug := false, hash_stack := none } ∧
    LfList.append
      { data := [.int 1, .int 2, .int 3], hash_taken := false,
        debug := false, hash_stack := none } (.int 4) =
      .ok (.selfRef,
        { data := [.int 1, .int 2, .int 3, .int 4], hash_taken := false,
          debug := false, hash_stack := none }) ∧
    (LfList.hash
      { data := [.int 1, .int 2, .int 3, .int 4], hash_taken := false,
        debug := false, hash_stack := none } "callsite").2 =
      { data := [.int 1, .int 2, .int 3, .int 4], hash_taken := true,
        debug := false, hash_stack := none } ∧
    LfList.append
      { data := [.int 1, .int 2, .int 3, .int 4], hash_taken := true,
        debug := false, hash_stack := none } (.int 5) =
      .error (.typeError "Cannot modify lf_list after hash is taken") :=
  ⟨rfl, rfl, rfl, rfl⟩

/-- C7: constructing the container with `debug=True` does **not** succeed: the
constructor forwards `**kwargs` to `UserList.__init__`, which accepts no
keyword arguments, so `lf_list([1, 2, 3], debug=True)` raises `TypeError`
before the diagnostics flag can ever be stored.  Consequently every container
the constructor does produce has diagnostics disabled. -/
theorem c7_debug_construction_raises :
    lf_list_init [[PyVal.int 1, PyVal.int 2, PyVal.int 3]] (some true) =
      .error (.typeError "UserList.init got an unexpected keyword argument debug") ∧
    lf_list_init [[PyVal.int 1, PyVal.int 2, PyVal.int 3]] (some false) =
      .error (.typeError "UserList.init got an unexpected keyword argument debug") :=
  ⟨rfl, rfl⟩

/-- C8: in diagnostics mode the unhashable-element check never fires: for a
container with `_debug` set (modelled directly, since the constructor cannot
produce it — see C7), appending a mutable mapping succeeds and the mapping is
inserted, because `hasattr(value, "__hash__")` is `True` even for a `dict`
(the attribute exists, with value `None`), so the guard condition
`not hasattr(value, "__hash__")` is never satisfied. -/
theorem c8_unhashable_check_never_fires :
    hashable (.dict 0) = false ∧
    hasattr_hash (.dict 0) = true ∧
    LfList.append
      { data := [.int 1], hash_taken := false, debug := true, hash_stack := none }
      (.dict 0) =
      .ok (.selfRef,
        { data := [.int 1, .dict 0], hash_taken := false, debug := true,
          hash_stack := none }) :=
  ⟨rfl, rfl, rfl⟩

/-- C9: `extend` never performs its mutation: on a plain unfrozen container
built from `[1, 2, 3]`, `extend([4])` raises `TypeError` because the source
invokes `validate_sequence()` without the positional argument it requires. -/
theorem c9_extend_always_raises :
    LfList.extend
      { data := [.int 1, .int 2, .int 3], hash_taken := false,
        debug := false, hash_stack := none } [.int 4] =
      .error (.typeError
        "validate_sequence missing 1 required positional argument: sequence") :=
  rfl

/-- C10: the binary `+` is not a pure concatenation: for every unfrozen
container `a` and sequence `b`, `a + b` extends the underlying storage of `a`
in place and returns `a` itself (`selfRef`, no new container), and with a
frozen left operand it raises the mutation-rejected `TypeError`; `__iadd__`
behaves identically. -/
theorem c10_add_mutates_in_place (a : LfList) (b : List PyVal) :
    a.add b =
      (if a.hash_taken then .error (.typeError a.freezeMsg)
       else .ok (.selfRef, { a with data := a.data ++ b })) ∧
    a.iadd b = a.add b := by
  refine ⟨?_, ?_⟩ <;>
    simp only [LfList.add, LfList.iadd, validate_sequence_eq] <;>
    cases a.hash_taken <;> rfl

/-! ## The `lazy_freeze` class decorator (`decorator.py`) -/

/-- State of an instance of a decorated class: its attribute dictionary, the
`hash_taken` flag (absent-until-first-hash in Python, modelled as a boolean
that starts `false`), and the `_hash_stack_trace` capture site (set only via
`object.__setattr__`, bypassing the guard). -/
structure Inst where
  attrs : List (String × PyVal)
  hash_taken : Bool
  captureSite : Option String
  deriving DecidableEq

/-- The fixed catalogue of in-place compound-assignment operators probed by the
decorator (`__iadd__`, `__isub__`, ...). -/
inductive IOp where
  | iadd | isub | imul | itruediv | ifloordiv | imod | ipow
  | ilshift | irshift | iand | ixor | ior | imatmul
  deriving DecidableEq

/-- The action-description strings of the in-place operators, exactly the
`error_formatter` lambdas of `optional_operations`. -/
def iopMsg : IOp → String
  | .iadd => "modify with in-place addition"
  | .isub => "modify with in-place subtraction"
  | .imul => "modify with in-place multiplication"
  | .itruediv => "modify with in-place division"
  | .ifloordiv => "modify with in-place floor division"
  | .imod => "modify with in-place modulo"
  | .ipow => "modify with in-place power"
  | .ilshift => "modify with in-place left shift"
  | .irshift => "modify with in-place right shift"
  | .iand => "modify with in-place bitwise AND"
  | .ixor => "modify with in-place bitwise XOR"
  | .ior => "modify with in-place bitwise OR"
  | .imatmul => "modify with in-place matrix multiplication"

/-- Action-description for `__setattr__` (the source wraps the name in single
quotes; the quoting punctuation is elided here). -/
def setattrOpMsg (n : String) : String := "modify attribute " ++ n ++ " of"

/-- Action-description for `__delattr__`. -/
def delattrOpMsg (n : String) : String := "delete attribute " ++ n ++ " from"

/-- Action-description for `__setitem__`. -/
def setitemOpMsg (k : PyVal) : String := "modify item " ++ pyStr k ++ " of"

/-- Action-description for `__delitem__`. -/
def delitemOpMsg (k : PyVal) : String := "delete item " ++ pyStr k ++ " from"

/-- The methods a target class defines, as discovered by the one-time
probing in the decorator: optional `__setattr__`/`__delattr__` overrides, the optional
item-mutation methods, and the optional in-place operators.  Each original
implementation is an opaque user-supplied state transformer. -/
structure ClassOps where
  setattrOverride : Option (Inst → String → PyVal → Except PyError Inst) := none
  delattrOverride : Option (Inst → String → Except PyError Inst) := none
  setitem : Option (Inst → PyVal → PyVal → Except PyError Inst) := none
  delitem : Option (Inst → PyVal → Except PyError Inst) := none
  iop : IOp → Option (Inst → PyVal → Except PyError (PyVal × Inst)) := fun _ => none

/-- The `__hash__` slot of a class as seen by
`hasattr(cls, "__hash__") and cls.__hash__ is not object.__hash__`:
the inherited default identity hash of `object`, an explicit `__hash__ = None`
(which is *not* `object.__hash__`), or a user-defined hash function. -/
inductive HashSlot where
  | objectDefault
  | noneSlot
  | custom (h : Inst → Int)

/-- Whether the slot is exactly `object.__hash__`; `has_custom_hash` in the
source is the negation of this (note `hasattr` is always `True`, and a
`__hash__ = None` slot counts as "custom" under the test in the source). -/
def HashSlot.isObjectDefault : HashSlot → Bool
  | .objectDefault => true
  | _ => false

/-- A target class: its name, its `__hash__` slot, and its probed methods. -/
structure PyClass where
  name : String
  hashSlot : HashSlot
  ops : ClassOps

/-- What the decorator may be applied to: a class, or some other value (a
function, an instance, ...) described by the name of its type. -/
inductive Decoratee where
  | cls (c : PyClass)
  | nonClass (typeName : String)

/-- The decorator configuration: the `debug` flag and the `protected_attrs`
argument (`none` models Python `None`, the default). -/
structure LFConfig where
  debug : Bool
  protected_attrs : Option (List String)

/-- Python truthiness of `if protected_attrs:`: `None` and the empty list are
both falsy. -/
def attrsTruthy (cfg : LFConfig) : Bool :=
  match cfg.protected_attrs with
  | none => false
  | some l => !l.isEmpty

/-- The protection list read by the guard (empty when `None`). -/
def protectedList (cfg : LFConfig) : List String :=
  cfg.protected_attrs.getD []

/-- The result of a successful registration: the target class together with
the configuration captured by the installed closures. -/
structure AugmentedClass where
  base : PyClass
  cfg : LFConfig

/-- Message of the `TypeError` raised when the decorator is applied to a
non-class value (f-string content abbreviated; it names the offending kind). -/
def nonClassMsg (t : String) : String :=
  "lazy_freeze can only be applied to classes, not " ++ t

/-- Message of the `AssertionError` raised when the target class lacks a
custom `__hash__` (it names the offending class). -/
def hashContractMsg (n : String) : String :=
  "Class " ++ n ++ " must implement a custom __hash__ method to use the lazy_freeze decorator"

/-- Source function `wrap(actual_cls)`: first the `isinstance(actual_cls, type)` check (a
`TypeError` for non-classes), then the `has_custom_hash` assertion (an
`AssertionError` naming the class), then the installation of the wrapped
methods, modelled by packaging the class with the captured configuration. -/
def wrap (cfg : LFConfig) (d : Decoratee) : Except PyError AugmentedClass :=
  match d with
  | .nonClass tyName => .error (.typeError (nonClassMsg tyName))
  | .cls c =>
    if c.hashSlot.isObjectDefault then
      .error (.assertionError (hashContractMsg c.name))
    else
      .ok { base := c, cfg := cfg }

/-- Calling the original hash slot: a custom hash returns its value; the
inherited `object.__hash__` is the identity hash, abstracted by a constant
(unreachable for registered classes); a `None` slot is not callable. -/
def slotHash : HashSlot → Inst → Except PyError Int
  | .custom h, self => .ok (h self)
  | .objectDefault, _ => .ok 0
  | .noneSlot, _ => .error (.typeError "NoneType object is not callable")

/-- The installed `__hash__` wrapper: call `original_hash(self)`, then set
`hash_taken = True` via `object.__setattr__`, then — in debug mode,
**unconditionally** — store the current stack (`site`) as
`_hash_stack_trace`, then return the original value. -/
def aug_hash (a : AugmentedClass) (self : Inst) (site : String) :
    Except PyError (Int × Inst) :=
  match slotHash a.base.hashSlot self with
  | .error e => .error e
  | .ok hv =>
    let self1 : Inst := { self with hash_taken := true }
    let self2 : Inst :=
      if a.cfg.debug then { self1 with captureSite := some site } else self1
    .ok (hv, self2)

/-- Source helper `get_error_message(self, operation)`: with `debug` and a stored
`_hash_stack_trace`, the captured stack is appended; otherwise the generic
message. -/
def get_error_message (a : AugmentedClass) (self : Inst) (operation : String) :
    String :=
  match a.cfg.debug, self.captureSite with
  | true, some trace =>
    "Cannot " ++ operation ++ " " ++ a.base.name ++
      " after its hash has been taken.\nHash was calculated at:\n" ++ trace
  | true, none =>
    "Cannot " ++ operation ++ " " ++ a.base.name ++ " after its hash has been taken"
  | false, _ =>
    "Cannot " ++ operation ++ " " ++ a.base.name ++ " after its hash has been taken"

/-- Association-list update modelling `object.__setattr__` on the instance
dictionary. -/
def setAssoc : List (String × PyVal) → String → PyVal → List (String × PyVal)
  | [], n, v => [(n, v)]
  | (k, w) :: rest, n, v =>
    if k = n then (n, v) :: rest else (k, w) :: setAssoc rest n v

/-- Association-list deletion; `none` when the key is absent. -/
def delAssoc : List (String × PyVal) → String → Option (List (String × PyVal))
  | [], _ => none
  | (k, w) :: rest, n =>
    if k = n then some rest
    else match delAssoc rest n with
      | some rest2 => some ((k, w) :: rest2)
      | none => none

/-- Model of `object.__setattr__`: plain dictionary update, never fails. -/
def objectSetattr (self : Inst) (n : String) (v : PyVal) : Except PyError Inst :=
  .ok { self with attrs := setAssoc self.attrs n v }

/-- Model of `object.__delattr__`: dictionary removal; `AttributeError` when absent. -/
def objectDelattr (self : Inst) (n : String) : Except PyError Inst :=
  match delAssoc self.attrs n with
  | some attrs2 => .ok { self with attrs := attrs2 }
  | none => .error (.attributeError n)

/-- The original `__setattr__` the wrapper delegates to: the override of the class
itself when it defines one, else `object.__setattr__` (the source reads
`getattr(actual_cls, "__setattr__")`, which resolves to exactly this). -/
def setattrOrig (c : PyClass) : Inst → String → PyVal → Except PyError Inst :=
  match c.ops.setattrOverride with
  | some f => f
  | none => objectSetattr

/-- The original `__delattr__` the wrapper delegates to. -/
def delattrOrig (c : PyClass) : Inst → String → Except PyError Inst :=
  match c.ops.delattrOverride with
  | some f => f
  | none => objectDelattr

/-- The installed `__setattr__` wrapper (`protected_method` with
`method_name = "__setattr__"`): when frozen, a truthy `protected_attrs` whose
list does not contain the attribute name lets the call through to the
original; any other frozen call is rejected; unfrozen calls always delegate. -/
def aug_setattr (a : AugmentedClass) (self : Inst) (n : String) (v : PyVal) :
    Except PyError Inst :=
  if self.hash_taken then
    if attrsTruthy a.cfg = true ∧ n ∉ protectedList a.cfg then
      setattrOrig a.base self n v
    else
      .error (.typeError (get_error_message a self (setattrOpMsg n)))
  else
    setattrOrig a.base self n v

/-- The installed `__delattr__` wrapper. -/
def aug_delattr (a : AugmentedClass) (self : Inst) (n : String) :
    Except PyError Inst :=
  if self.hash_taken then
    if attrsTruthy a.cfg = true ∧ n ∉ protectedList a.cfg then
      delattrOrig a.base self n
    else
      .error (.typeError (get_error_message a self (delattrOpMsg n)))
  else
    delattrOrig a.base self n

/-- The `__setitem__` wrapper created when the class defines `__setitem__`
(`protected_method` with `method_name = "__setitem__"`): the
`protected_attrs` selectivity applies only to `__setattr__`/`__delattr__`, so
a frozen item assignment is always rejected, whatever the key. -/
def setitem_wrapper (a : AugmentedClass)
    (orig : Inst → PyVal → PyVal → Except PyError Inst)
    (self : Inst) (k v : PyVal) : Except PyError Inst :=
  if self.hash_taken then
    .error (.typeError (get_error_message a self (setitemOpMsg k)))
  else
    orig self k v

/-- The `__delitem__` wrapper created when the class defines `__delitem__`. -/
def delitem_wrapper (a : AugmentedClass)
    (orig : Inst → PyVal → Except PyError Inst)
    (self : Inst) (k : PyVal) : Except PyError Inst :=
  if self.hash_taken then
    .error (.typeError (get_error_message a self (delitemOpMsg k)))
  else
    orig self k

/-- The `__setitem__` method installed on the augmented class, if any: the
decorator wraps the operation **only if** the class already defines it
(`hasattr(actual_cls, "__setitem__")`). -/
def installed_setitem (a : AugmentedClass) :
    Option (Inst → PyVal → PyVal → Except PyError Inst) :=
  (a.base.ops.setitem).map (setitem_wrapper a)

/-- The `__delitem__` method installed on the augmented class, if any. -/
def installed_delitem (a : AugmentedClass) :
    Option (Inst → PyVal → Except PyError Inst) :=
  (a.base.ops.delitem).map (delitem_wrapper a)

/-- Message Python itself raises for `obj[k] = v` on a type without
`__setitem__` (quoting punctuation elided). -/
def unsupportedSetitemMsg (n : String) : String :=
  n ++ " object does not support item assignment"

/-- Message Python itself raises for `del obj[k]` on a type without
`__delitem__`. -/
def unsupportedDelitemMsg (n : String) : String :=
  n ++ " object does not support item deletion"

/-- Call semantics of `obj[k] = v` on an instance of the augmented class: the
installed wrapper when one exists, else the ordinary Python unsupported-operation
`TypeError` (no wrapper was installed, so there is nothing freeze-related on
this path). -/
def call_setitem (a : AugmentedClass) (self : Inst) (k v : PyVal) :
    Except PyError Inst :=
  match installed_setitem a with
  | some m => m self k v
  | none => .error (.typeError (unsupportedSetitemMsg a.base.name))

/-- Call semantics of `del obj[k]` on an instance of the augmented class. -/
def call_delitem (a : AugmentedClass) (self : Inst) (k : PyVal) :
    Except PyError Inst :=
  match installed_delitem a with
  | some m => m self k
  | none => .error (.typeError (unsupportedDelitemMsg a.base.name))

/-- The wrapper created for an in-place operator the class defines
(`protected_method` with `method_name = "__iadd__"` etc.): the frozen branch
never consults `protected_attrs` (the inner allowance is restricted to
`__setattr__`/`__delattr__`), so a frozen in-place operation is always
rejected; unfrozen calls delegate to the original operator. -/
def iop_wrapper (a : AugmentedClass) (op : IOp)
    (orig : Inst → PyVal → Except PyError (PyVal × Inst))
    (self : Inst) (other : PyVal) : Except PyError (PyVal × Inst) :=
  if self.hash_taken then
    .error (.typeError (get_error_message a self (iopMsg op)))
  else
    orig self other

/-- The in-place-operator method installed on the augmented class for `op`,
if the class defines `op` (probed once at registration time). -/
def installed_iop (a : AugmentedClass) (op : IOp) :
    Option (Inst → PyVal → Except PyError (PyVal × Inst)) :=
  (a.base.ops.iop op).map (iop_wrapper a op)

/-! ### Example registered classes used by the witnesses and counterexamples -/

/-- Original `__setitem__` of the example class `Box`: stores the item in the
instance dictionary under the rendered key. -/
def boxSetitem : Inst → PyVal → PyVal → Except PyError Inst :=
  fun self k v => .ok { self with attrs := setAssoc self.attrs (pyStr k) v }

/-- Original `__delitem__` of the example class `Box`. -/
def boxDelitem : Inst → PyVal → Except PyError Inst :=
  fun self k => .ok { self with attrs := (delAssoc self.attrs (pyStr k)).getD self.attrs }

/-- Example class `Box`: a custom hash, its own item mutation methods, no
in-place operators. -/
def boxClass : PyClass :=
  { name := "Box", hashSlot := .custom (fun _ => 1),
    ops := { setitem := some boxSetitem, delitem := some boxDelitem } }

/-- The class `Box` registered with `protected_attrs=["name"]` (non-empty). -/
def boxAug : AugmentedClass :=
  { base := boxClass, cfg := { debug := false, protected_attrs := some ["name"] } }

/-- A frozen `Box` instance. -/
def frozenBox : Inst :=
  { attrs := [("name", .int 7)], hash_taken := true, captureSite := none }

/-- An unfrozen `Box` instance. -/
def freshBox : Inst :=
  { attrs := [("name", .int 7)], hash_taken := false, captureSite := none }

/-- Example class with only the default identity hash (fails registration). -/
def noHashClass : PyClass :=
  { name := "Person", hashSlot := .objectDefault, ops := {} }

/-- Example class with a custom hash and no optional operations at all. -/
def plainClass : PyClass :=
  { name := "Plain", hashSlot := .custom (fun _ => 3), ops := {} }

/-- The class `Plain` registered with default options. -/
def plainAug : AugmentedClass :=
  { base := plainClass, cfg := { debug := false, protected_attrs := none } }

/-- A frozen `Plain` instance. -/
def plainFrozen : Inst := { attrs := [], hash_taken := true, captureSite := none }

/-- An unfrozen `Plain` instance. -/
def plainFresh : Inst := { attrs := [], hash_taken := false, captureSite := none }

/-- Original `__iadd__` of the example class `Counter`. -/
def counterIadd : Inst → PyVal → Except PyError (PyVal × Inst) :=
  fun self _ => .ok (.pynone, self)

/-- Example class `Counter`: a custom hash and an `__iadd__` operator. -/
def counterClass : PyClass :=
  { name := "Counter", hashSlot := .custom (fun _ => 7),
    ops := { iop := fun op => match op with | .iadd => some counterIadd | _ => none } }

/-- The class `Counter` registered with a non-empty protection list (the in-place
operator must be rejected after freeze all the same). -/
def counterAug : AugmentedClass :=
  { base := counterClass, cfg := { debug := false, protected_attrs := some ["x"] } }

/-- A frozen `Counter` instance. -/
def counterFrozen : Inst :=
  { attrs := [("x", .int 0)], hash_taken := true, captureSite := none }

/-- Example debug-mode registered class for the capture-site claims. -/
def dbgClass : PyClass :=
  { name := "DebugPerson", hashSlot := .custom (fun _ => 42), ops := {} }

/-- The class `DebugPerson` registered with `debug=True`. -/
def dbgAug : AugmentedClass :=
  { base := dbgClass, cfg := { debug := true, protected_attrs := none } }

/-- A frozen `DebugPerson` instance whose capture site is `site1`. -/
def dbgFrozen : Inst :=
  { attrs := [], hash_taken := true, captureSite := some "site1" }

/-- An unfrozen, never-hashed `DebugPerson` instance. -/
def dbgFresh : Inst := { attrs := [], hash_taken := false, captureSite := none }

/-- A debug-mode `lf_list` that has never been hashed. -/
def lfDbgFresh : LfList :=
  { data := [], hash_taken := false, debug := true, hash_stack := none }

/-- A frozen debug-mode `lf_list` whose capture site is `s2`. -/
def lfDbgFrozen : LfList :=
  { data := [.int 1], hash_taken := true, debug := true, hash_stack := some "s2" }

/-! ### Claims about the decorator -/

/-- C2 (amended): for a registered type with a truthy `protected_attrs`, after
freeze an **attribute** set-or-delete whose name is not listed delegates to the
original implementation and a listed one is rejected, but an **item**
set-or-delete is always rejected after freeze regardless of the key (the
selectivity check in `protected_method` fires only for
`__setattr__`/`__delattr__`); before freeze every operation delegates. -/
theorem c2_partial_protection (a : AugmentedClass) (self : Inst) (n : String)
    (v k w : PyVal)
    (origIt : Inst → PyVal → PyVal → Except PyError Inst)
    (origDel : Inst → PyVal → Except PyError Inst)
    (hreg : wrap a.cfg (.cls a.base) = .ok a)
    (hprot : attrsTruthy a.cfg = true)
    (hsi : a.base.ops.setitem = some origIt)
    (hdi : a.base.ops.delitem = some origDel) :
    (self.hash_taken = true → n ∉ protectedList a.cfg →
      aug_setattr a self n v = setattrOrig a.base self n v) ∧
    (self.hash_taken = true → n ∈ protectedList a.cfg →
      aug_setattr a self n v =
        .error (.typeError (get_error_message a self (setattrOpMsg n)))) ∧
    (self.hash_taken = true → n ∉ protectedList a.cfg →
      aug_delattr a self n = delattrOrig a.base self n) ∧
    (self.hash_taken = true → n ∈ protectedList a.cfg →
      aug_delattr a self n =
        .error (.typeError (get_error_message a self (delattrOpMsg n)))) ∧
    (self.hash_taken = true →
      call_setitem a self k w =
        .error (.typeError (get_error_message a self (setitemOpMsg k)))) ∧
    (self.hash_taken = true →
      call_delitem a self k =
        .error (.typeError (get_error_message a self (delitemOpMsg k)))) ∧
    (self.hash_taken = false →
      aug_setattr a self n v = setattrOrig a.base self n v ∧
      aug_delattr a self n = delattrOrig a.base self n ∧
      call_setitem a self k w = origIt self k w ∧
      call_delitem a self k = origDel self k) := by
  refine ⟨?_, ?_, ?_, ?_, ?_, ?_, ?_⟩
  · intro hf hn
    simp [aug_setattr, hf, hprot, hn]
  · intro hf hn
    simp [aug_setattr, hf, hn]
  · intro hf hn
    simp [aug_delattr, hf, hprot, hn]
  · intro hf hn
    simp [aug_delattr, hf, hn]
  · intro hf
    simp [call_setitem, installed_setitem, hsi, setitem_wrapper, hf]
  · intro hf
    simp [call_delitem, installed_delitem, hdi, delitem_wrapper, hf]
  · intro hf
    refine ⟨?_, ?_, ?_, ?_⟩
    · simp [aug_setattr, hf]
    · simp [aug_delattr, hf]
    · simp [call_setitem, installed_setitem, hsi, setitem_wrapper, hf]
    · simp [call_delitem, installed_delitem, hdi, delitem_wrapper, hf]

/-- Witness for C2: concrete leaves of `c2_partial_protection` on the
registered `Box` class with `protected_attrs=["name"]`. -/
theorem c2_witness :
    aug_setattr boxAug frozenBox "desc" (.int 2) =
      setattrOrig boxClass frozenBox "desc" (.int 2) ∧
    aug_setattr boxAug frozenBox "name" (.int 2) =
      .error (.typeError (get_error_message boxAug frozenBox (setattrOpMsg "name"))) ∧
    call_setitem boxAug frozenBox (.str "z") (.int 1) =
      .error (.typeError (get_error_message boxAug frozenBox (setitemOpMsg (.str "z")))) ∧
    call_setitem boxAug freshBox (.str "z") (.int 1) =
      boxSetitem freshBox (.str "z") (.int 1) :=
  have h1 := c2_partial_protection boxAug frozenBox "desc" (.int 2) (.str "z") (.int 1)
    boxSetitem boxDelitem rfl rfl rfl rfl
  have h2 := c2_partial_protection boxAug frozenBox "name" (.int 2) (.str "z") (.int 1)
    boxSetitem boxDelitem rfl rfl rfl rfl
  have h3 := c2_partial_protection boxAug freshBox "desc" (.int 2) (.str "z") (.int 1)
    boxSetitem boxDelitem rfl rfl rfl rfl
  ⟨h1.1 rfl (by decide), h2.2.1 rfl (by decide),
   h1.2.2.2.2.1 rfl, (h3.2.2.2.2.2.2 rfl).2.2.1⟩

/-- Counterexample to C2 as stated: on the frozen `Box` registered with
`protected_attrs=["name"]`, the item assignment at key `"other"` (not in the
protection list) is **rejected** with the mutation-rejected error, although the
original `__setitem__` would have succeeded — the claim says the call is
allowed and delegates. -/
theorem c2_counterexample :
    call_setitem boxAug frozenBox (.str "other") (.int 1) =
      .error (.typeError "Cannot modify item other of Box after its hash has been taken") ∧
    boxSetitem frozenBox (.str "other") (.int 1) =
      .ok { attrs := [("name", .int 7), ("other", .int 1)], hash_taken := true,
            captureSite := none } := by
  constructor
  · rfl
  · simp [boxSetitem, frozenBox, setAssoc, pyStr]

/-- C3 (amended): in diagnostics mode the capture site is **overwritten** by
every identity-hash call, not only the first: after any hash call the stored
capture site is the site of that call, for both the generic wrapper and the
sequence container, and a post-freeze rejection error reports the currently
stored (i.e. most recent) capture site. -/
theorem c3_capture_site_overwritten (a : AugmentedClass) (self self2 : Inst)
    (site s : String) (hv : Int) (l : LfList) (n : String) (v : PyVal)
    (hdbg : a.cfg.debug = true)
    (hh : aug_hash a self site = .ok (hv, self2))
    (hldbg : l.debug = true) :
    self2.captureSite = some site ∧
    ((l.hash s).2).hash_stack = some s ∧
    (self.hash_taken = true → self.captureSite = some site →
      attrsTruthy a.cfg = false →
      aug_setattr a self n v =
        .error (.typeError ("Cannot " ++ setattrOpMsg n ++ " " ++ a.base.name ++
          " after its hash has been taken.\nHash was calculated at:\n" ++ site))) ∧
    (l.hash_taken = true → l.hash_stack = some s →
      l.append v =
        .error (.typeError ("Cannot modify lf_list, hash was taken at " ++ s))) := by
  refine ⟨?_, ?_, ?_, ?_⟩
  · rcases hsl : slotHash a.base.hashSlot self with e | hv0 <;>
      simp [aug_hash, hsl, hdbg] at hh
    rw [← hh.2]
  · simp [LfList.hash, hldbg]
  · intro hf hcs hpat
    simp [aug_setattr, hf, hpat, get_error_message, hdbg, hcs]
  · intro hf hstk
    simp [LfList.append, LfList.validate, hldbg, hf, Option.filter,
      hasattr_hash_true, LfList.freezeMsg, hstk, stackText]

/-- Witness for C3: the amended behaviour on the concrete `DebugPerson` class
and a concrete debug-mode container. -/
theorem c3_witness :
    dbgFrozen.captureSite = some "site1" ∧
    ((lfDbgFrozen.hash "s2").2).hash_stack = some "s2" ∧
    aug_setattr dbgAug dbgFrozen "age" (.int 5) =
      .error (.typeError ("Cannot " ++ setattrOpMsg "age" ++ " " ++ "DebugPerson" ++
        " after its hash has been taken.\nHash was calculated at:\n" ++ "site1")) ∧
    lfDbgFrozen.append (.int 5) =
      .error (.typeError ("Cannot modify lf_list, hash was taken at " ++ "s2")) :=
  have h := c3_capture_site_overwritten dbgAug dbgFrozen dbgFrozen "site1" "s2" 42
    lfDbgFrozen "age" (.int 5) rfl rfl rfl
  ⟨h.1, h.2.1, h.2.2.1 rfl rfl rfl, h.2.2.2 rfl rfl⟩

/-- Counterexample to C3 as stated: a second hash call at a different call
site replaces the stored capture site in both implementations — it is not left
unchanged as the claim requires. -/
theorem c3_counterexample :
    aug_hash dbgAug dbgFresh "first" =
      .ok (42, { attrs := [], hash_taken := true, captureSite := some "first" }) ∧
    aug_hash dbgAug { attrs := [], hash_taken := true, captureSite := some "first" }
      "second" =
      .ok (42, { attrs := [], hash_taken := true, captureSite := some "second" }) ∧
    (some "second" : Option String) ≠ some "first" ∧
    ((lfDbgFresh.hash "one").2.hash "two").2.hash_stack = some "two" ∧
    ((lfDbgFresh.hash "one").2).hash_stack = some "one" :=
  ⟨rfl, rfl, by decide, rfl, rfl⟩

/-- C4: registration preconditions.  A class whose `__hash__` slot is the
default identity hash of `object` is refused at decoration time with an
`AssertionError` whose message names the offending class (no instance is
involved: `wrap` itself raises); a non-class argument is refused with a
distinct `TypeError` (a different exception class). -/
theorem c4_registration_preconditions (cfg : LFConfig) (c : PyClass) (t : String)
    (hdef : c.hashSlot = .objectDefault) :
    wrap cfg (.cls c) = .error (.assertionError (hashContractMsg c.name)) ∧
    hashContractMsg c.name =
      "Class " ++ c.name ++
        " must implement a custom __hash__ method to use the lazy_freeze decorator" ∧
    wrap cfg (.nonClass t) = .error (.typeError (nonClassMsg t)) ∧
    (∀ m1 m2 : String, PyError.assertionError m1 ≠ PyError.typeError m2) := by
  refine ⟨?_, rfl, rfl, ?_⟩
  · simp [wrap, hdef, HashSlot.isObjectDefault]
  · intro m1 m2 h
    cases h

/-- Witness for C4: the concrete hash-less class `Person` and a function
argument. -/
theorem c4_witness :
    wrap { debug := false, protected_attrs := none } (.cls noHashClass) =
      .error (.assertionError (hashContractMsg "Person")) ∧
    hashContractMsg "Person" =
      "Class " ++ "Person" ++
        " must implement a custom __hash__ method to use the lazy_freeze decorator" ∧
    wrap { debug := false, protected_attrs := none } (.nonClass "function") =
      .error (.typeError (nonClassMsg "function")) ∧
    PyError.assertionError (hashContractMsg "Person") ≠
      PyError.typeError (nonClassMsg "function") :=
  have h := c4_registration_preconditions { debug := false, protected_attrs := none }
    noHashClass "function" rfl
  ⟨h.1, h.2.1, h.2.2.1, h.2.2.2 _ _⟩

/-- C5 (amended): for a registered type that does not define an optional item
mutation, **no guard is installed** for it (`hasattr` probing skips it), so
invoking the operation raises the normal unsupported-operation error of the type
both on unfrozen *and* on frozen instances — never a freeze-related error. -/
theorem c5_missing_ops_get_plain_error (a : AugmentedClass) (self : Inst)
    (k w : PyVal)
    (hreg : wrap a.cfg (.cls a.base) = .ok a)
    (hniSet : a.base.ops.setitem = none)
    (hniDel : a.base.ops.delitem = none) :
    installed_setitem a = none ∧
    installed_delitem a = none ∧
    call_setitem a self k w =
      .error (.typeError (unsupportedSetitemMsg a.base.name)) ∧
    call_delitem a self k =
      .error (.typeError (unsupportedDelitemMsg a.base.name)) := by
  simp [installed_setitem, installed_delitem, call_setitem, call_delitem, hniSet, hniDel]

/-- Witness for C5: the `Plain` class, with a frozen and an unfrozen instance. -/
theorem c5_witness :
    call_setitem plainAug plainFrozen (.str "k") (.int 1) =
      .error (.typeError (unsupportedSetitemMsg "Plain")) ∧
    call_setitem plainAug plainFresh (.str "k") (.int 1) =
      .error (.typeError (unsupportedSetitemMsg "Plain")) ∧
    call_delitem plainAug plainFrozen (.str "k") =
      .error (.typeError (unsupportedDelitemMsg "Plain")) :=
  have h1 := c5_missing_ops_get_plain_error plainAug plainFrozen (.str "k") (.int 1)
    rfl rfl rfl
  have h2 := c5_missing_ops_get_plain_error plainAug plainFresh (.str "k") (.int 1)
    rfl rfl rfl
  ⟨h1.2.2.1, h2.2.2.1, h1.2.2.2⟩

/-- Counterexample to C5 as stated: on a **frozen** instance of `Plain` (which
defines no `__setitem__`), indexed assignment raises the plain
unsupported-operation error, which is not the freeze-related mutation-rejected
message the claim requires. -/
theorem c5_counterexample :
    call_setitem plainAug plainFrozen (.str "k") (.int 1) =
      .error (.typeError (unsupportedSetitemMsg "Plain")) ∧
    unsupportedSetitemMsg "Plain" ≠
      get_error_message plainAug plainFrozen (setitemOpMsg (.str "k")) :=
  ⟨rfl, by decide⟩

/-- C6: for every registered type and every in-place operator the type
defines, the installed wrapper rejects the call with the mutation-rejected
error once the instance is frozen — whatever `protected_attrs` is (the
selectivity branch of the guard is restricted to attribute methods and never
reaches in-place operators). -/
theorem c6_inplace_rejected_when_frozen (a : AugmentedClass) (op : IOp)
    (orig : Inst → PyVal → Except PyError (PyVal × Inst)) (self : Inst)
    (other : PyVal)
    (hreg : wrap a.cfg (.cls a.base) = .ok a)
    (hop : a.base.ops.iop op = some orig)
    (hfrozen : self.hash_taken = true) :
    installed_iop a op = some (iop_wrapper a op orig) ∧
    iop_wrapper a op orig self other =
      .error (.typeError (get_error_message a self (iopMsg op))) := by
  constructor
  · simp [installed_iop, hop]
  · simp [iop_wrapper, hfrozen]

/-- Witness for C6: the registered `Counter` class (non-empty
`protected_attrs`), whose `__iadd__` is rejected on a frozen instance. -/
theorem c6_witness :
    installed_iop counterAug .iadd = some (iop_wrapper counterAug .iadd counterIadd) ∧
    iop_wrapper counterAug .iadd counterIadd counterFrozen (.int 1) =
      .error (.typeError (get_error_message counterAug counterFrozen (iopMsg .iadd))) :=
  c6_inplace_rejected_when_frozen counterAug .iadd counterIadd counterFrozen (.int 1)
    rfl rfl rfl

end LazyFreeze
